import Mathlib

/-!
Verification of propagation-path (ppath) computations of the ARTS
radiative-transfer code, as implemented in src/ppath.cc.

The development is a shallow embedding: the numerical functions of
ppath.cc are translated to Lean functions over the real numbers
(machine doubles become exact reals, so "within numerical tolerance"
statements are settled as exact identities), while the structural
functions (the Ppath structure, ppath_append, the stepping loop of
ppath_calc) are translated to computable functions over the rationals,
which move data around without rounding.
-/

namespace Arts

/-! ## Precision constants (ppath.cc / ppath.h) -/

/-- DEG2RAD conversion factor (constants.cc). -/
noncomputable def DEG2RAD : ℝ := Real.pi / 180

/-- RAD2DEG conversion factor (constants.cc). -/
noncomputable def RAD2DEG : ℝ := 180 / Real.pi

/-- Maximum allowed error tolerance for radius, ppath.cc line 77. -/
def RTOL : ℝ := 1e-3

/-- Angular tolerance around 0/90/180 degrees, ppath.h line 104. -/
def ANGTOL : ℝ := 1e-6

/-- Modelled from the spec: the function sign from math_funcs (its source
file is not part of the provided sources); it returns the sign of its
argument as -1, 0 or +1. -/
noncomputable def sgn (x : ℝ) : ℝ :=
  if x < 0 then -1 else if x = 0 then 0 else 1

/-! ## Geometrical path functions (ppath.cc lines 103-409) -/

/-- geometrical_ppc (ppath.cc line 117): the propagation path constant
for pure geometrical calculations, r * sin(DEG2RAD * abs(za)). -/
noncomputable def geometrical_ppc (r za : ℝ) : ℝ :=
  r * Real.sin (DEG2RAD * |za|)

/-- geompath_za_at_r (ppath.cc line 147): zenith angle at radius r along
a geometrical path with path constant ppc, on the same side of the
tangent point as a point with zenith angle a_za. -/
noncomputable def geompath_za_at_r (ppc a_za r : ℝ) : ℝ :=
  if ppc < r then
    let za0 := RAD2DEG * Real.arcsin (ppc / r)
    let za1 := if 90 < |a_za| then 180 - za0 else za0
    if a_za < 0 then -za1 else za1
  else
    if 0 < a_za then 90 else -90

/-- geompath_r_at_za (ppath.cc line 186): radius at zenith angle za,
ppc / sin(DEG2RAD * abs(za)). -/
noncomputable def geompath_r_at_za (ppc za : ℝ) : ℝ :=
  ppc / Real.sin (DEG2RAD * |za|)

/-- geompath_lat_at_za (ppath.cc line 216): latitude at zenith angle za,
lat0 + za0 - za. -/
def geompath_lat_at_za (za0 lat0 za : ℝ) : ℝ :=
  lat0 + za0 - za

/-- geompath_l_at_r (ppath.cc line 244): length from the tangent point
for radius r; sqrt(r*r - ppc*ppc) above the tangent point, else 0. -/
noncomputable def geompath_l_at_r (ppc r : ℝ) : ℝ :=
  if ppc < r then Real.sqrt (r * r - ppc * ppc) else 0

/-- geompath_r_at_l (ppath.cc line 273): radius at (signed) length l
from the tangent point, sqrt(l*l + ppc*ppc). -/
noncomputable def geompath_r_at_l (ppc l : ℝ) : ℝ :=
  Real.sqrt (l * l + ppc * ppc)

/-- geompath_r_at_lat (ppath.cc line 296): radius at latitude lat, via
the zenith angle za0 + lat0 - lat. -/
noncomputable def geompath_r_at_lat (ppc lat0 za0 lat : ℝ) : ℝ :=
  geompath_r_at_za ppc (za0 + lat0 - lat)

/-- The output of geompath_from_r1_to_r2: n is the number of path steps
(the output vectors r_v, lat_v and za_v of the source hold the n+1
points with indices 0..n, modelled here as functions of the index), and
lstep is the common distance along the path between consecutive
points. -/
structure GeomSegment where
  n : ℕ
  r : ℕ → ℝ
  lat : ℕ → ℝ
  za : ℕ → ℝ
  lstep : ℝ

/-- The signed length from the tangent point of the start point of
geompath_from_r1_to_r2 (ppath.cc lines 352-354): negative when looking
downward. -/
noncomputable def gfr_l1 (ppc r1 za1 : ℝ) : ℝ :=
  if 90 < |za1| then -geompath_l_at_r ppc r1 else geompath_l_at_r ppc r1

/-- The signed length from the tangent point of the end point of
geompath_from_r1_to_r2 (ppath.cc lines 355-358): sign flipped when the
start length is negative, and flipped again across a tangent point. -/
noncomputable def gfr_l2 (ppc r1 za1 r2 : ℝ) (tanpoint : Bool) : ℝ :=
  let l2a := geompath_l_at_r ppc r2
  let l2b := if gfr_l1 ppc r1 za1 < 0 then -l2a else l2a
  if tanpoint then -l2b else l2b

/-- The number of steps of geompath_from_r1_to_r2 (ppath.cc lines
361-369): ceil(abs(l2-l1)/lmax), at least 1, and exactly 1 when no
length criterion is given (lmax <= 0). -/
noncomputable def gfr_n (l1 l2 lmax : ℝ) : ℕ :=
  if 0 < lmax then max 1 ⌈|l2 - l1| / lmax⌉₊ else 1

/-- Radius of point i of geompath_from_r1_to_r2 (ppath.cc lines
376-392): r1 at the start, exactly r2 at the end, and geompath_r_at_l
at l1 + i*lstep in between. -/
noncomputable def gfr_rpoint (ppc r1 r2 l1 lstep : ℝ) (n i : ℕ) : ℝ :=
  if i = 0 then r1
  else if i = n then r2
  else geompath_r_at_l ppc (l1 + lstep * (i : ℝ))

/-- Zenith angle of point i of geompath_from_r1_to_r2 (ppath.cc lines
383-401): za1 at the start (and everywhere for zenith/nadir cases,
lines 400-401), and geompath_za_at_r with a reference angle of 80, 90
or 100 (by the signs of za1 and the length coordinate) elsewhere. -/
noncomputable def gfr_zapoint (ppc r1 r2 za1 l1 l2 lstep : ℝ) (n i : ℕ) : ℝ :=
  if |za1| < ANGTOL ∨ 180 - ANGTOL < |za1| then za1
  else if i = 0 then za1
  else if i = n then geompath_za_at_r ppc (sgn za1 * (90 - sgn l2 * 10)) r2
  else geompath_za_at_r ppc (sgn za1 * (90 - sgn (l1 + lstep * (i : ℝ)) * 10))
    (gfr_rpoint ppc r1 r2 l1 lstep n i)

/-- geompath_from_r1_to_r2 (ppath.cc line 341): radii, latitudes and
zenith angles of the path points between radius r1 (zenith angle za1,
latitude lat1) and radius r2, with a tangent point between them iff
tanpoint, subdividing so that the distance between consecutive points
does not exceed lmax (no subdivision for lmax <= 0). -/
noncomputable def geompath_from_r1_to_r2 (ppc r1 lat1 za1 r2 : ℝ)
    (tanpoint : Bool) (lmax : ℝ) : GeomSegment :=
  let l1 := gfr_l1 ppc r1 za1
  let l2 := gfr_l2 ppc r1 za1 r2 tanpoint
  let n := gfr_n l1 l2 lmax
  let lstep := (l2 - l1) / (n : ℝ)
  let zaF : ℕ → ℝ := fun i => gfr_zapoint ppc r1 r2 za1 l1 l2 lstep n i
  let latF : ℕ → ℝ := fun i =>
    if i = 0 then lat1 else geompath_lat_at_za za1 lat1 (zaF i)
  ⟨n, fun i => gfr_rpoint ppc r1 r2 l1 lstep n i, latF, zaF, |lstep|⟩

/-! ## Core invariant: r * sin(za) is preserved along a geometric path -/

/-- Along a geometric path, a point placed at radius r by
geompath_za_at_r satisfies the impact-parameter identity
r * sin(DEG2RAD * za) = ppc, provided the reference zenith angle is
positive and r is not below the tangent radius. -/
theorem geompath_za_at_r_invariant (ppc a_za r : ℝ)
    (hppc : 0 ≤ ppc) (hr : ppc ≤ r) (ha : 0 < a_za) :
    r * Real.sin (DEG2RAD * geompath_za_at_r ppc a_za r) = ppc := by
  have hπ : (Real.pi : ℝ) ≠ 0 := Real.pi_ne_zero
  rcases lt_or_eq_of_le hr with hlt | heq
  · -- strictly above the tangent point
    have hr0 : 0 < r := lt_of_le_of_lt hppc hlt
    have hdiv0 : 0 ≤ ppc / r := div_nonneg hppc (le_of_lt hr0)
    have hdiv1 : ppc / r ≤ 1 := (div_le_one hr0).mpr (le_of_lt hlt)
    have hsin : Real.sin (Real.arcsin (ppc / r)) = ppc / r :=
      Real.sin_arcsin (le_trans (by norm_num) hdiv0) hdiv1
    have hconv : DEG2RAD * (RAD2DEG * Real.arcsin (ppc / r))
        = Real.arcsin (ppc / r) := by
      unfold DEG2RAD RAD2DEG
      field_simp
      ring
    have hmul : r * (ppc / r) = ppc := by field_simp
    unfold geompath_za_at_r
    rw [if_pos hlt]
    simp only
    rw [if_neg (not_lt.mpr (le_of_lt ha))]
    by_cases hbig : 90 < |a_za|
    · rw [if_pos hbig]
      have : DEG2RAD * (180 - RAD2DEG * Real.arcsin (ppc / r))
          = Real.pi - Real.arcsin (ppc / r) := by
        unfold DEG2RAD RAD2DEG
        field_simp
        ring
      rw [this, Real.sin_pi_sub, hsin, hmul]
    · rw [if_neg hbig, hconv, hsin, hmul]
  · -- at the tangent point: za = 90 (a_za > 0)
    unfold geompath_za_at_r
    rw [if_neg (by rw [heq]; exact lt_irrefl r)]
    rw [if_pos ha]
    have h90 : DEG2RAD * (90 : ℝ) = Real.pi / 2 := by
      unfold DEG2RAD
      field_simp
      ring
    rw [h90, Real.sin_pi_div_two, mul_one, ← heq]

/-- The sign of a positive number is 1. -/
theorem sgn_of_pos {x : ℝ} (h : 0 < x) : sgn x = 1 := by
  unfold sgn
  rw [if_neg (not_lt.mpr (le_of_lt h)), if_neg (ne_of_gt h)]

/-- The auxiliary reference angle 90 - sign(l)*10 used inside
geompath_from_r1_to_r2 is one of 80, 90, 100, hence positive. -/
theorem ref_angle_pos (x : ℝ) : 0 < 90 - sgn x * 10 := by
  unfold sgn
  split
  · norm_num
  · split <;> norm_num

/-- A radius produced by geompath_r_at_l is never below the tangent
radius ppc. -/
theorem ppc_le_geompath_r_at_l (ppc l : ℝ) (hppc : 0 ≤ ppc) :
    ppc ≤ geompath_r_at_l ppc l := by
  unfold geompath_r_at_l
  have h1 : ppc = Real.sqrt (ppc * ppc) := (Real.sqrt_mul_self hppc).symm
  rw [h1]
  exact Real.sqrt_le_sqrt (by nlinarith)

/-- gfr_n is always at least 1: geompath_from_r1_to_r2 always produces
at least one step (two points). -/
theorem gfr_n_pos (l1 l2 lmax : ℝ) : 1 ≤ gfr_n l1 l2 lmax := by
  unfold gfr_n
  split
  · exact le_max_left 1 _
  · exact le_refl 1

/-- geompath_from_r1_to_r2 always produces at least one step (two
points). -/
theorem geompath_from_r1_to_r2_n_pos (ppc r1 lat1 za1 r2 : ℝ)
    (tanpoint : Bool) (lmax : ℝ) :
    1 ≤ (geompath_from_r1_to_r2 ppc r1 lat1 za1 r2 tanpoint lmax).n :=
  gfr_n_pos _ _ _

/-- The first point of geompath_from_r1_to_r2 is exactly r1 and the
last exactly r2. -/
theorem geompath_from_r1_to_r2_ends (ppc r1 lat1 za1 r2 : ℝ)
    (tanpoint : Bool) (lmax : ℝ) :
    (geompath_from_r1_to_r2 ppc r1 lat1 za1 r2 tanpoint lmax).r 0 = r1 ∧
    (geompath_from_r1_to_r2 ppc r1 lat1 za1 r2 tanpoint lmax).r
      (geompath_from_r1_to_r2 ppc r1 lat1 za1 r2 tanpoint lmax).n = r2 := by
  have hn := gfr_n_pos (gfr_l1 ppc r1 za1) (gfr_l2 ppc r1 za1 r2 tanpoint) lmax
  unfold geompath_from_r1_to_r2
  dsimp only
  unfold gfr_rpoint
  constructor
  · rw [if_pos rfl]
  · rw [if_neg (by omega), if_pos rfl]

/-- Every point placed by the gfr_rpoint / gfr_zapoint pair satisfies
the impact-parameter identity r_i * sin(DEG2RAD * za_i) = ppc, for any
values of the internal length coordinates, given that the start point
satisfies it, that neither end radius is below the tangent radius, and
that the start zenith angle is away (by ANGTOL) from the exact zenith
and nadir directions. -/
theorem gfr_point_invariant (ppc r1 r2 za1 l1 l2 lstep : ℝ) (n i : ℕ)
    (hppc : 0 ≤ ppc) (h2 : ppc ≤ r2)
    (hza1 : ANGTOL ≤ za1) (hza2 : za1 ≤ 180 - ANGTOL)
    (hstart : r1 * Real.sin (DEG2RAD * za1) = ppc) :
    gfr_rpoint ppc r1 r2 l1 lstep n i *
      Real.sin (DEG2RAD * gfr_zapoint ppc r1 r2 za1 l1 l2 lstep n i) = ppc := by
  have hAng : (0 : ℝ) < ANGTOL := by unfold ANGTOL; norm_num
  have hza1pos : 0 < za1 := lt_of_lt_of_le hAng hza1
  have habs : |za1| = za1 := abs_of_pos hza1pos
  have hsgnza1 : sgn za1 = 1 := sgn_of_pos hza1pos
  have hov : ¬ (|za1| < ANGTOL ∨ 180 - ANGTOL < |za1|) := by
    rw [habs]
    push_neg
    exact ⟨hza1, hza2⟩
  unfold gfr_zapoint
  rw [if_neg hov, hsgnza1]
  by_cases hi0 : i = 0
  · unfold gfr_rpoint
    rw [if_pos hi0, if_pos hi0]
    exact hstart
  · by_cases hin : i = n
    · unfold gfr_rpoint
      rw [if_neg hi0, if_neg hi0, if_pos hin, if_pos hin]
      exact geompath_za_at_r_invariant ppc _ r2 hppc h2
        (by rw [one_mul]; exact ref_angle_pos _)
    · rw [if_neg hi0, if_neg hin]
      unfold gfr_rpoint
      rw [if_neg hi0, if_neg hin]
      have hr := ppc_le_geompath_r_at_l ppc (l1 + lstep * (i : ℝ)) hppc
      exact geompath_za_at_r_invariant ppc
        (1 * (90 - sgn (l1 + lstep * (i : ℝ)) * 10))
        (geompath_r_at_l ppc (l1 + lstep * (i : ℝ))) hppc hr
        (by rw [one_mul]; exact ref_angle_pos _)

/-- Every point of the step built by geompath_from_r1_to_r2 satisfies
the impact-parameter identity r_i * sin(DEG2RAD * za_i) = ppc, given
that the start point does, that neither end radius is below the tangent
radius, and that the start zenith angle is away (by ANGTOL) from the
exact zenith and nadir directions. -/
theorem geompath_from_r1_to_r2_invariant (ppc r1 lat1 za1 r2 : ℝ)
    (tanpoint : Bool) (lmax : ℝ)
    (hppc : 0 ≤ ppc) (h2 : ppc ≤ r2)
    (hza1 : ANGTOL ≤ za1) (hza2 : za1 ≤ 180 - ANGTOL)
    (hstart : r1 * Real.sin (DEG2RAD * za1) = ppc) (i : ℕ) :
    (geompath_from_r1_to_r2 ppc r1 lat1 za1 r2 tanpoint lmax).r i *
      Real.sin (DEG2RAD *
        (geompath_from_r1_to_r2 ppc r1 lat1 za1 r2 tanpoint lmax).za i)
      = ppc := by
  unfold geompath_from_r1_to_r2
  dsimp only
  exact gfr_point_invariant ppc r1 r2 za1 _ _ _ _ i hppc h2 hza1 hza2 hstart

/-! ## do_gridrange_1d and ppath_step_geom_1d (ppath.cc lines 2680-2807) -/

/-- The result of do_gridrange_1d: the path points through the grid
range, the end face code (4 = upper level, 2 = lower level, 7 =
surface) and the tangent-point flag. -/
structure GridrangeOut where
  seg : GeomSegment
  endface : ℤ
  tanpoint : Bool

/-- do_gridrange_1d (ppath.cc line 2680): the geometrical path through
a 1D grid range between the pressure-level radii ra < rb with surface
radius rsurface. The start radius is clamped into [ra, rb]; an upward
start (za <= 90) exits at rb (end face 4); a downward start exits at ra
(end face 2) if ra is above both the surface and the tangent radius,
else at the surface (end face 7) if that is above the tangent radius,
else passes the tangent point and returns to rb (end face 4). -/
noncomputable def do_gridrange_1d (r_start0 lat_start za_start ppc lmax
    ra rb rsurface : ℝ) : GridrangeOut :=
  let r_start := if r_start0 < ra then ra else if rb < r_start0 then rb else r_start0
  let sel : ℤ × ℝ × Bool :=
    if za_start ≤ 90 then (4, rb, false)
    else if rsurface < ra ∧ ppc < ra then (2, ra, false)
    else if ppc < rsurface then (7, rsurface, false)
    else (4, rb, true)
  ⟨geompath_from_r1_to_r2 ppc r_start lat_start za_start sel.2.1 sel.2.2 lmax,
    sel.1, sel.2.2⟩

/-- The result of ppath_step_geom_1d, as assembled by ppath_end_1d
(ppath.cc line 2031): the path points of the step, the end face, and
the value written into the constant field of the returned Ppath. -/
structure Step1D where
  seg : GeomSegment
  endface : ℤ
  tanpoint : Bool
  constant : ℝ

/-- ppath_step_geom_1d (ppath.cc line 2764): the 1D geometrical path
step. The start values r_start, lat_start, za_start and the field
constant are the data extracted from the incoming Ppath by
ppath_start_1d; ra, rb and rsurface stand for refellipsoid[0] +
z_field[ip], refellipsoid[0] + z_field[ip+1] and refellipsoid[0] +
z_surface. The path constant ppc is taken from the incoming constant
field when that is non-negative, and is otherwise computed by
geometrical_ppc; ppath_end_1d then stores ppc in the constant field of
the result. -/
noncomputable def ppath_step_geom_1d (r_start lat_start za_start constant
    ra rb rsurface lmax : ℝ) : Step1D :=
  let ppc := if constant < 0 then geometrical_ppc r_start za_start else constant
  let out := do_gridrange_1d r_start lat_start za_start ppc lmax ra rb rsurface
  ⟨out.seg, out.endface, out.tanpoint, ppc⟩

/-! ## Step-length subdivision of do_gridcell_3d_byltest
    (ppath.cc lines 3259-3283) -/

/-- Number of segments the 3D cell crossing of do_gridcell_3d_byltest
is divided into (ppath.cc lines 3259-3266): ceil(abs(l_end/lmax)), at
least 1, and exactly 1 when lmax <= 0. -/
noncomputable def do_gridcell_3d_nsegments (l_end lmax : ℝ) : ℕ :=
  if 0 < lmax then max 1 ⌈|l_end / lmax|⌉₊ else 1

/-- Length along the cartesian line between consecutive output points
of do_gridcell_3d_byltest (ppath.cc line 3281). -/
noncomputable def do_gridcell_3d_lstep (l_end lmax : ℝ) : ℝ :=
  l_end / (do_gridcell_3d_nsegments l_end lmax : ℝ)

/-- Dividing a length x into max(1, ceil(|x|/lmax)) equal parts makes
each part at most lmax. -/
theorem abs_div_nsegments_le (x lmax : ℝ) (h : 0 < lmax) :
    |x| / ((max 1 ⌈|x| / lmax⌉₊ : ℕ) : ℝ) ≤ lmax := by
  set m : ℕ := max 1 ⌈|x| / lmax⌉₊ with hm
  have hm1 : 1 ≤ m := le_max_left _ _
  have hmpos : (0 : ℝ) < (m : ℝ) := by exact_mod_cast hm1
  rw [div_le_iff₀ hmpos]
  have hceil : |x| / lmax ≤ (m : ℝ) := by
    calc |x| / lmax ≤ (⌈|x| / lmax⌉₊ : ℝ) := Nat.le_ceil _
    _ ≤ (m : ℝ) := by exact_mod_cast le_max_right 1 ⌈|x| / lmax⌉₊
  calc |x| = (|x| / lmax) * lmax := by field_simp
  _ ≤ (m : ℝ) * lmax := mul_le_mul_of_nonneg_right hceil (le_of_lt h)
  _ = lmax * (m : ℝ) := mul_comm _ _

/-- Helper for concrete inputs: sin of 90 degrees is 1. -/
theorem sin_deg2rad_90 : Real.sin (DEG2RAD * 90) = 1 := by
  have h : DEG2RAD * (90 : ℝ) = Real.pi / 2 := by
    unfold DEG2RAD
    field_simp
    ring
  rw [h, Real.sin_pi_div_two]

/-- Helper for concrete inputs: the geometrical path constant of a limb
direction (za = 90) equals the radius itself. -/
theorem geometrical_ppc_90 (r : ℝ) : geometrical_ppc r 90 = r := by
  unfold geometrical_ppc
  rw [abs_of_nonneg (by norm_num : (0:ℝ) ≤ 90), sin_deg2rad_90, mul_one]

/-! ## Claim theorems C1, C2, C8 -/

/-- C1: for every 1D geometric path step computed by ppath_step_geom_1d
(path constant ppc taken as the incoming constant when non-negative,
otherwise r_start*sin(za_start) via geometrical_ppc), every point i of
the returned step satisfies r_i * sin(za_i) = ppc (exactly, in the real
model, hence within numerical tolerance), and the returned step's
constant field equals ppc. Hypotheses: the start point lies inside the
grid range, satisfies the invariant itself, is not below the tangent
radius, and looks away (by ANGTOL) from exact zenith/nadir. -/
theorem C1_ppath_step_geom_1d_invariant
    (r_start lat_start za_start constant ra rb rsurface lmax ppc : ℝ) (i : ℕ)
    (hppc_def : ppc = if constant < 0 then geometrical_ppc r_start za_start
      else constant)
    (hra : ra ≤ r_start) (hrb : r_start ≤ rb)
    (hppc0 : 0 ≤ ppc) (hppcr : ppc ≤ r_start)
    (hstart : r_start * Real.sin (DEG2RAD * za_start) = ppc)
    (hza1 : ANGTOL ≤ za_start) (hza2 : za_start ≤ 180 - ANGTOL) :
    (ppath_step_geom_1d r_start lat_start za_start constant
        ra rb rsurface lmax).seg.r i *
      Real.sin (DEG2RAD * (ppath_step_geom_1d r_start lat_start za_start
        constant ra rb rsurface lmax).seg.za i) = ppc ∧
    (ppath_step_geom_1d r_start lat_start za_start constant
        ra rb rsurface lmax).constant = ppc := by
  have hrarb : ra ≤ rb := le_trans hra hrb
  unfold ppath_step_geom_1d do_gridrange_1d
  dsimp only
  rw [← hppc_def]
  refine ⟨?_, rfl⟩
  rw [if_neg (not_lt.mpr hra), if_neg (not_lt.mpr hrb)]
  split_ifs with hz hlow hsurf
  · exact geompath_from_r1_to_r2_invariant ppc r_start lat_start za_start rb
      false lmax hppc0 (le_trans hppcr hrb) hza1 hza2 hstart i
  · exact geompath_from_r1_to_r2_invariant ppc r_start lat_start za_start ra
      false lmax hppc0 (le_of_lt hlow.2) hza1 hza2 hstart i
  · exact geompath_from_r1_to_r2_invariant ppc r_start lat_start za_start
      rsurface false lmax hppc0 (le_of_lt hsurf) hza1 hza2 hstart i
  · exact geompath_from_r1_to_r2_invariant ppc r_start lat_start za_start rb
      true lmax hppc0 (le_trans hppcr hrb) hza1 hza2 hstart i

/-- Witness for C1: a limb-viewing start point (za = 90) at radius 2 in
the grid range [1, 3], first call (incoming constant -1), evaluated at
point 0. -/
theorem C1_witness :
    (ppath_step_geom_1d 2 0 90 (-1) 1 3 0 (-1)).seg.r 0 *
      Real.sin (DEG2RAD * (ppath_step_geom_1d 2 0 90 (-1) 1 3 0 (-1)).seg.za 0)
      = 2 ∧
    (ppath_step_geom_1d 2 0 90 (-1) 1 3 0 (-1)).constant = 2 :=
  C1_ppath_step_geom_1d_invariant 2 0 90 (-1) 1 3 0 (-1) 2 0
    (by rw [if_pos (by norm_num : (-1:ℝ) < 0), geometrical_ppc_90])
    (by norm_num) (by norm_num) (by norm_num) (by norm_num)
    (by rw [sin_deg2rad_90]; norm_num)
    (by unfold ANGTOL; norm_num) (by unfold ANGTOL; norm_num)

/-- C2: in do_gridrange_1d with cell radii ra < rb, surface radius
rsurface and path constant ppc, an upward start (za <= 90) exits at the
upper level rb with end face 4; a downward start (za > 90) exits at the
lower level ra (end face 2) when ra > rsurface and ra > ppc, else at
the surface (end face 7) when rsurface > ppc, else passes a tangent
point and returns to the upper level rb (end face 4 with tangent flag);
and in the downward case the selection depends only on the radii, never
on the zenith angle. -/
theorem C2_do_gridrange_1d_cases
    (r_start0 lat_start za_start ppc lmax ra rb rsurface : ℝ)
    (hab : ra < rb) :
    (za_start ≤ 90 →
      (do_gridrange_1d r_start0 lat_start za_start ppc lmax ra rb rsurface).endface = 4 ∧
      (do_gridrange_1d r_start0 lat_start za_start ppc lmax ra rb rsurface).tanpoint = false ∧
      (do_gridrange_1d r_start0 lat_start za_start ppc lmax ra rb rsurface).seg.r
        (do_gridrange_1d r_start0 lat_start za_start ppc lmax ra rb rsurface).seg.n = rb) ∧
    (90 < za_start → rsurface < ra → ppc < ra →
      (do_gridrange_1d r_start0 lat_start za_start ppc lmax ra rb rsurface).endface = 2 ∧
      (do_gridrange_1d r_start0 lat_start za_start ppc lmax ra rb rsurface).tanpoint = false ∧
      (do_gridrange_1d r_start0 lat_start za_start ppc lmax ra rb rsurface).seg.r
        (do_gridrange_1d r_start0 lat_start za_start ppc lmax ra rb rsurface).seg.n = ra) ∧
    (90 < za_start → ¬(rsurface < ra ∧ ppc < ra) → ppc < rsurface →
      (do_gridrange_1d r_start0 lat_start za_start ppc lmax ra rb rsurface).endface = 7 ∧
      (do_gridrange_1d r_start0 lat_start za_start ppc lmax ra rb rsurface).tanpoint = false ∧
      (do_gridrange_1d r_start0 lat_start za_start ppc lmax ra rb rsurface).seg.r
        (do_gridrange_1d r_start0 lat_start za_start ppc lmax ra rb rsurface).seg.n = rsurface) ∧
    (90 < za_start → ¬(rsurface < ra ∧ ppc < ra) → ¬(ppc < rsurface) →
      (do_gridrange_1d r_start0 lat_start za_start ppc lmax ra rb rsurface).endface = 4 ∧
      (do_gridrange_1d r_start0 lat_start za_start ppc lmax ra rb rsurface).tanpoint = true ∧
      (do_gridrange_1d r_start0 lat_start za_start ppc lmax ra rb rsurface).seg.r
        (do_gridrange_1d r_start0 lat_start za_start ppc lmax ra rb rsurface).seg.n = rb) ∧
    (∀ za za', 90 < za → 90 < za' →
      (do_gridrange_1d r_start0 lat_start za ppc lmax ra rb rsurface).endface =
        (do_gridrange_1d r_start0 lat_start za' ppc lmax ra rb rsurface).endface ∧
      (do_gridrange_1d r_start0 lat_start za ppc lmax ra rb rsurface).tanpoint =
        (do_gridrange_1d r_start0 lat_start za' ppc lmax ra rb rsurface).tanpoint) := by
  refine ⟨?_, ?_, ?_, ?_, ?_⟩
  · intro hz
    unfold do_gridrange_1d
    dsimp only
    rw [if_pos hz]
    exact ⟨rfl, rfl, (geompath_from_r1_to_r2_ends _ _ _ _ _ _ _).2⟩
  · intro hz hs hp
    unfold do_gridrange_1d
    dsimp only
    rw [if_neg (not_le.mpr hz), if_pos ⟨hs, hp⟩]
    exact ⟨rfl, rfl, (geompath_from_r1_to_r2_ends _ _ _ _ _ _ _).2⟩
  · intro hz hlow hs
    unfold do_gridrange_1d
    dsimp only
    rw [if_neg (not_le.mpr hz), if_neg hlow, if_pos hs]
    exact ⟨rfl, rfl, (geompath_from_r1_to_r2_ends _ _ _ _ _ _ _).2⟩
  · intro hz hlow hs
    unfold do_gridrange_1d
    dsimp only
    rw [if_neg (not_le.mpr hz), if_neg hlow, if_neg hs]
    exact ⟨rfl, rfl, (geompath_from_r1_to_r2_ends _ _ _ _ _ _ _).2⟩
  · intro za za' hz hz'
    unfold do_gridrange_1d
    dsimp only
    rw [if_neg (not_le.mpr hz), if_neg (not_le.mpr hz')]
    exact ⟨rfl, rfl⟩

/-- Witness for C2: a downward start (za = 120) in the cell [2, 3] with
surface radius 1 and path constant 3/2 exits through the lower level
(end face 2, no tangent point, last radius 2). -/
theorem C2_witness :
    (do_gridrange_1d (5/2) 0 120 (3/2) (-1) 2 3 1).endface = 2 ∧
    (do_gridrange_1d (5/2) 0 120 (3/2) (-1) 2 3 1).tanpoint = false ∧
    (do_gridrange_1d (5/2) 0 120 (3/2) (-1) 2 3 1).seg.r
      (do_gridrange_1d (5/2) 0 120 (3/2) (-1) 2 3 1).seg.n = 2 :=
  (C2_do_gridrange_1d_cases (5/2) 0 120 (3/2) (-1) 2 3 1
    (by norm_num)).2.1 (by norm_num) (by norm_num) (by norm_num)

/-- C8: for every single-cell step with a caller-supplied maximum step
length lmax > 0, the distance along the path between consecutive output
points never exceeds lmax, both in the 1D/2D closed-form subdivision of
geompath_from_r1_to_r2 and in the cartesian-line subdivision of
do_gridcell_3d_byltest; for negative lmax a single segment is produced,
so only the start and exit points appear. -/
theorem C8_step_length_bound (ppc r1 lat1 za1 r2 : ℝ) (tanpoint : Bool)
    (lmax l_end : ℝ) :
    (0 < lmax →
      (geompath_from_r1_to_r2 ppc r1 lat1 za1 r2 tanpoint lmax).lstep ≤ lmax) ∧
    (0 < lmax → |do_gridcell_3d_lstep l_end lmax| ≤ lmax) ∧
    (lmax < 0 →
      (geompath_from_r1_to_r2 ppc r1 lat1 za1 r2 tanpoint lmax).n = 1) ∧
    (lmax < 0 → do_gridcell_3d_nsegments l_end lmax = 1) := by
  refine ⟨?_, ?_, ?_, ?_⟩
  · intro h
    unfold geompath_from_r1_to_r2 gfr_n
    dsimp only
    rw [if_pos h, abs_div, Nat.abs_cast]
    exact abs_div_nsegments_le _ _ h
  · intro h
    unfold do_gridcell_3d_lstep do_gridcell_3d_nsegments
    rw [if_pos h, abs_div, Nat.abs_cast]
    have hx : |l_end / lmax| = |l_end| / lmax := by
      rw [abs_div, abs_of_pos h]
    rw [hx]
    exact abs_div_nsegments_le _ _ h
  · intro h
    unfold geompath_from_r1_to_r2 gfr_n
    dsimp only
    rw [if_neg (not_lt.mpr (le_of_lt h))]
  · intro h
    unfold do_gridcell_3d_nsegments
    rw [if_neg (not_lt.mpr (le_of_lt h))]

/-- Witness for C8: with lmax = 2 the 1D step length obeys the bound,
and with lmax = -1 the 3D crossing keeps only start and exit points. -/
theorem C8_witness :
    (geompath_from_r1_to_r2 1 2 0 100 3 false 2).lstep ≤ 2 ∧
    do_gridcell_3d_nsegments 7 (-1) = 1 :=
  ⟨(C8_step_length_bound 1 2 0 100 3 false 2 7).1 (by norm_num),
    (C8_step_length_bound 1 2 0 100 3 false (-1) 7).2.2.2 (by norm_num)⟩

/-! ## ppath_start_stepping, 1D branch (ppath.cc lines 4481-4578) -/

/-- Outcome of the 1D branch of ppath_start_stepping. The constructors
encode the four ways the branch can end: belowSurfaceError is the
thrown runtime_error reporting how many km below the surface the start
point is (no path point produced); inside is a single start point at
the sensor (surfaceBackground records whether the sensor sits on the
surface looking down, lines 4512-4513; the pressure grid position of
this point comes from the external function gridpos and is not
modelled); space is the totally-outside case (lines 4545-4553):
background set to "space", only a warning logged, the path is the
single sensor point; enters is the case of a downward look from above
the atmosphere that hits it (lines 4557-4575): the first path point is
put exactly on the top pressure level, with radius r0, zenith angle
za0, latitude lat0, exact pressure grid position (gpIdx, fd0, fd1) and
the values of end_lstep and the path constant. -/
inductive StartOutcome1D where
  | belowSurfaceError (km_below : ℝ)
  | inside (z za : ℝ) (surfaceBackground : Bool)
  | space (z za : ℝ)
  | enters (r0 za0 lat0 : ℝ) (gpIdx : ℤ) (fd0 fd1 : ℝ)
      (end_lstep constant : ℝ)

/-- The 1D branch of ppath_start_stepping (ppath.cc lines 4481-4578),
for the cloudbox-off case. z_sensor and za_sensor are rte_pos[0] and
rte_los[0], z_toa is z_field(lp,0,0) for the last pressure level lp, re
is refellipsoid[0] and z_surface the surface altitude. -/
noncomputable def ppath_start_stepping_1d (z_sensor za_sensor z_toa
    z_surface re : ℝ) (lp : ℕ) : StartOutcome1D :=
  if z_sensor < z_toa then
    if z_sensor + RTOL < z_surface then
      StartOutcome1D.belowSurfaceError ((z_surface - z_sensor) / 1000)
    else
      StartOutcome1D.inside z_sensor za_sensor
        (if z_sensor ≤ z_surface ∧ 90 < za_sensor then true else false)
  else
    let ppc := geometrical_ppc (re + z_sensor) za_sensor
    if za_sensor ≤ 90 ∨ re + z_toa ≤ ppc then
      StartOutcome1D.space z_sensor za_sensor
    else
      let r0 := re + z_toa
      let za0 := geompath_za_at_r ppc za_sensor r0
      StartOutcome1D.enters r0 za0 (geompath_lat_at_za za_sensor 0 za0)
        ((lp : ℤ) - 1) 1 0
        (geompath_l_at_r ppc (re + z_sensor) - geompath_l_at_r ppc r0)
        ppc

/-- Boolean test used to state error behaviour: does the 1D start of
stepping raise the below-surface runtime_error? -/
def StartOutcome1D.isBelowSurfaceError : StartOutcome1D → Bool
  | StartOutcome1D.belowSurfaceError _ => true
  | _ => false

/-! ## Claim theorems C3, C6, C7 -/

/-- C3: for a 1D sensor above the top of the atmosphere looking down
(za > 90) whose impact parameter is smaller than the top-of-atmosphere
radius, the first path point lies exactly on the top pressure level:
radius re + z_toa, pressure grid position (lp - 1, fd = (1, 0)), and
its zenith angle za0 satisfies r0*sin(za0) = r_sensor*sin(za_sensor). -/
theorem C3_ppath_start_enters_top
    (z_sensor za_sensor z_toa z_surface re : ℝ) (lp : ℕ)
    (houtside : z_toa ≤ z_sensor)
    (hza1 : 90 < za_sensor) (hza2 : za_sensor ≤ 180)
    (hrsensor : 0 ≤ re + z_sensor)
    (hppc : geometrical_ppc (re + z_sensor) za_sensor < re + z_toa) :
    ppath_start_stepping_1d z_sensor za_sensor z_toa z_surface re lp =
      StartOutcome1D.enters (re + z_toa)
        (geompath_za_at_r (geometrical_ppc (re + z_sensor) za_sensor)
          za_sensor (re + z_toa))
        (geompath_lat_at_za za_sensor 0
          (geompath_za_at_r (geometrical_ppc (re + z_sensor) za_sensor)
            za_sensor (re + z_toa)))
        ((lp : ℤ) - 1) 1 0
        (geompath_l_at_r (geometrical_ppc (re + z_sensor) za_sensor)
            (re + z_sensor) -
          geompath_l_at_r (geometrical_ppc (re + z_sensor) za_sensor)
            (re + z_toa))
        (geometrical_ppc (re + z_sensor) za_sensor) ∧
    (re + z_toa) *
      Real.sin (DEG2RAD *
        geompath_za_at_r (geometrical_ppc (re + z_sensor) za_sensor)
          za_sensor (re + z_toa)) =
      (re + z_sensor) * Real.sin (DEG2RAD * za_sensor) := by
  have hza0 : 0 < za_sensor := lt_trans (by norm_num) hza1
  have habs : |za_sensor| = za_sensor := abs_of_pos hza0
  have hppc0 : 0 ≤ geometrical_ppc (re + z_sensor) za_sensor := by
    unfold geometrical_ppc
    apply mul_nonneg hrsensor
    apply Real.sin_nonneg_of_nonneg_of_le_pi
    · apply mul_nonneg
      · unfold DEG2RAD
        positivity
      · rw [habs]; exact le_of_lt hza0
    · rw [habs]
      unfold DEG2RAD
      calc Real.pi / 180 * za_sensor ≤ Real.pi / 180 * 180 := by
            apply mul_le_mul_of_nonneg_left hza2
            positivity
      _ = Real.pi := by ring
  constructor
  · unfold ppath_start_stepping_1d
    rw [if_neg (not_lt.mpr houtside)]
    dsimp only
    rw [if_neg ?hcond]
    case hcond =>
      push_neg
      exact ⟨hza1, hppc⟩
  · have hinv := geompath_za_at_r_invariant
      (geometrical_ppc (re + z_sensor) za_sensor) za_sensor (re + z_toa)
      hppc0 (le_of_lt hppc) hza0
    rw [hinv]
    unfold geometrical_ppc
    rw [habs]

/-- Witness for C3: a sensor at radius 6200000 (re = 6000000, altitude
200000) above a 100000 m top of atmosphere, looking down at za = 150,
so that the impact parameter 3100000 is below the TOA radius 6100000. -/
theorem C3_witness :
    ppath_start_stepping_1d 200000 150 100000 0 6000000 10 =
      StartOutcome1D.enters 6100000
        (geompath_za_at_r (geometrical_ppc 6200000 150) 150 6100000)
        (geompath_lat_at_za 150 0
          (geompath_za_at_r (geometrical_ppc 6200000 150) 150 6100000))
        9 1 0
        (geompath_l_at_r (geometrical_ppc 6200000 150) 6200000 -
          geompath_l_at_r (geometrical_ppc 6200000 150) 6100000)
        (geometrical_ppc 6200000 150) ∧
    (6100000 : ℝ) *
      Real.sin (DEG2RAD *
        geompath_za_at_r (geometrical_ppc 6200000 150) 150 6100000) =
      (6200000 : ℝ) * Real.sin (DEG2RAD * 150) := by
  have hsin150 : Real.sin (DEG2RAD * 150) = 1 / 2 := by
    have h : DEG2RAD * (150 : ℝ) = Real.pi - Real.pi / 6 := by
      unfold DEG2RAD
      ring
    rw [h, Real.sin_pi_sub, Real.sin_pi_div_six]
  have hppc : geometrical_ppc 6200000 150 < (6100000 : ℝ) := by
    unfold geometrical_ppc
    rw [abs_of_nonneg (by norm_num : (0:ℝ) ≤ 150), hsin150]
    norm_num
  have h := C3_ppath_start_enters_top 200000 150 100000 0 6000000 10
    (by norm_num) (by norm_num) (by norm_num) (by norm_num)
    (by rw [show (6000000 : ℝ) + 200000 = 6200000 by norm_num,
          show (6000000 : ℝ) + 100000 = 6100000 by norm_num]; exact hppc)
  rw [show (6000000 : ℝ) + 200000 = 6200000 by norm_num,
    show (6000000 : ℝ) + 100000 = 6100000 by norm_num,
    show ((10 : ℕ) : ℤ) - 1 = 9 by norm_num] at h
  exact h

/-- C6 as stated is refuted by this counterexample: a sensor half a
millimetre below the surface (z_surface = 0, z_sensor = -1/2000, in an
atmosphere with top at 100000 m) is below the surface, yet
ppath_start_stepping does not raise the below-surface error, because
the source only throws when rte_pos[0] + RTOL < z_surface
(ppath.cc line 4492). -/
theorem C6_counterexample :
    (ppath_start_stepping_1d (-1/2000) 120 100000 0 6000000 10).isBelowSurfaceError
      = false ∧ (-1/2000 : ℝ) < 0 := by
  constructor
  · unfold ppath_start_stepping_1d
    rw [if_pos (by norm_num : (-1/2000 : ℝ) < 100000)]
    rw [if_neg (by unfold RTOL; norm_num : ¬ ((-1/2000 : ℝ) + RTOL < 0))]
    rfl
  · norm_num

/-- C6 amended: for every sensor inside the model atmosphere whose
altitude is more than RTOL (= 1 mm) below the surface altitude,
ppath_start_stepping raises the hard error reporting how far (in km)
below the surface the starting point is placed, and no path point is
produced (the error outcome carries no path point). -/
theorem C6_below_surface_error (z_sensor za_sensor z_toa z_surface re : ℝ)
    (lp : ℕ)
    (hinside : z_sensor < z_toa)
    (hbelow : z_sensor + RTOL < z_surface) :
    ppath_start_stepping_1d z_sensor za_sensor z_toa z_surface re lp =
      StartOutcome1D.belowSurfaceError ((z_surface - z_sensor) / 1000) := by
  unfold ppath_start_stepping_1d
  rw [if_pos hinside, if_pos hbelow]

/-- Witness for C6 (amended): a sensor 500 m below the surface. -/
theorem C6_witness :
    ppath_start_stepping_1d (-500) 120 100000 0 6000000 10 =
      StartOutcome1D.belowSurfaceError ((0 - (-500)) / 1000) :=
  C6_below_surface_error (-500) 120 100000 0 6000000 10
    (by norm_num) (by unfold RTOL; norm_num)

/-- C7: for every sensor outside the model atmosphere looking up
(0 <= za <= 90), ppath_start_stepping completes without error: the
outcome is the space constructor (background "space", only a warning
logged), a single path point at the sensor position. -/
theorem C7_outside_looking_up (z_sensor za_sensor z_toa z_surface re : ℝ)
    (lp : ℕ)
    (houtside : z_toa ≤ z_sensor)
    (hza : za_sensor ≤ 90) :
    ppath_start_stepping_1d z_sensor za_sensor z_toa z_surface re lp =
      StartOutcome1D.space z_sensor za_sensor := by
  unfold ppath_start_stepping_1d
  rw [if_neg (not_lt.mpr houtside)]
  dsimp only
  rw [if_pos (Or.inl hza)]

/-- Witness for C7: a sensor at 200 km looking up at za = 45 above a
100 km atmosphere. -/
theorem C7_witness :
    ppath_start_stepping_1d 200000 45 100000 0 6000000 10 =
      StartOutcome1D.space 200000 45 :=
  C7_outside_looking_up 200000 45 100000 0 6000000 10
    (by norm_num) (by norm_num)

/-! ## ppath_step_refr_1d ray-tracing scheme dispatch
    (ppath.cc lines 3700-3714) -/

/-- Possible failure behaviours of the ray-tracing scheme dispatch of
ppath_step_refr_1d: either the scheme is supported and tracing runs, or
the code hits assert(false) (a debug-only abort with no message, which
in builds without assertions lets execution continue), or a
runtime_error with a descriptive message would be thrown (this last
behaviour does not occur in the source; the constructor exists to state
the spec's claim). -/
inductive RtraceFail where
  | traced
  | assertionFailure
  | runtimeError (msg : String)
deriving DecidableEq

/-- Boolean test: is the failure behaviour a reported runtime_error
with a descriptive message? -/
def RtraceFail.isRuntimeError : RtraceFail → Bool
  | RtraceFail.runtimeError _ => true
  | _ => false

/-- Dispatch on rtrace_method in ppath_step_refr_1d (ppath.cc lines
3700-3714): the single supported scheme "linear_basic" calls
raytrace_1d_linear_basic; every other name reaches assert(false). -/
def ppath_step_refr_1d_dispatch (rtrace_method : String) : RtraceFail :=
  if rtrace_method = "linear_basic" then RtraceFail.traced
  else RtraceFail.assertionFailure

/-- C9 as stated is refuted by this counterexample: calling
ppath_step_refr_1d with the unsupported scheme name "linear_euler" does
not terminate with a reported, descriptive error message; it hits the
debug-only assert(false) of ppath.cc line 3712, which carries no
message and is compiled out of release builds. -/
theorem C9_counterexample :
    (ppath_step_refr_1d_dispatch "linear_euler").isRuntimeError = false ∧
    ppath_step_refr_1d_dispatch "linear_euler" =
      RtraceFail.assertionFailure := by
  constructor <;> rfl

/-- C9 amended: for every ray-tracing scheme name other than
"linear_basic", ppath_step_refr_1d fails through assert(false), a
debug-only assertion without a descriptive message (so in release
builds the unsupported name is not reported at all). -/
theorem C9_unsupported_scheme_asserts (rtrace_method : String)
    (h : rtrace_method ≠ "linear_basic") :
    ppath_step_refr_1d_dispatch rtrace_method =
      RtraceFail.assertionFailure := by
  unfold ppath_step_refr_1d_dispatch
  rw [if_neg h]

/-- Witness for C9 (amended): the scheme name "linear_euler". -/
theorem C9_witness :
    ppath_step_refr_1d_dispatch "linear_euler" =
      RtraceFail.assertionFailure :=
  C9_unsupported_scheme_asserts "linear_euler" (by decide)

/-! ## The Ppath structure and its basic functions
    (ppath.h, ppath.cc lines 1707-1976)

The structural functions move data around without arithmetic on the
stored numbers, so Numeric is modelled by the rationals, which keeps
everything computable. The field set is the one used by ppath.cc
(start_pos, end_pos, lstep, nreal, ngroup, ...). -/

/-- A grid position (interpolation.h): grid index and the two
fractional distances fd[0], fd[1]. -/
structure GridPos where
  idx : ℤ
  fd0 : ℚ
  fd1 : ℚ
deriving DecidableEq

/-- The Ppath structure, with the fields used by ppath.cc. Matrices
pos and los are lists of rows. -/
structure Ppath where
  dim : ℕ
  np : ℕ
  constant : ℚ
  background : String
  start_pos : List ℚ
  start_los : List ℚ
  start_lstep : ℚ
  end_pos : List ℚ
  end_los : List ℚ
  end_lstep : ℚ
  pos : List (List ℚ)
  los : List (List ℚ)
  r : List ℚ
  lstep : List ℚ
  nreal : List ℚ
  ngroup : List ℚ
  gp_p : List GridPos
  gp_lat : List GridPos
  gp_lon : List GridPos
deriving DecidableEq

/-- The background string for a background case number
(ppath_set_background, ppath.cc line 1771). A case number other than
the listed ones raises a runtime_error in the source and is never used;
it is mapped to the empty string here. -/
def ppath_set_background_string (case_nr : ℕ) : String :=
  if case_nr = 0 then "unvalid"
  else if case_nr = 1 then "space"
  else if case_nr = 2 then "surface"
  else if case_nr = 3 then "cloud box level"
  else if case_nr = 4 then "cloud box interior"
  else if case_nr = 9 then "transmitter"
  else ""

/-- ppath_what_background (ppath.cc line 1816): the case number of the
radiative background. A string that is not a valid background raises a
runtime_error in the source; such strings are never produced by the
modelled functions and are mapped to 0 here. -/
def ppath_what_background (ppath : Ppath) : ℕ :=
  if ppath.background = "unvalid" then 0
  else if ppath.background = "space" then 1
  else if ppath.background = "surface" then 2
  else if ppath.background = "cloud box level" then 3
  else if ppath.background = "cloud box interior" then 4
  else if ppath.background = "transmitter" then 9
  else 0

/-- ppath_init_structure (ppath.cc line 1707): a Ppath for np points of
an atmosphere of the given dimensionality. Vectors that the source
resizes without assigning (end_pos, pos, r, ...) are filled with 0
here; start_pos and start_los are set to -999, start_lstep and
end_lstep to 0, the constant to -1 and the background to case 0. -/
def ppath_init_structure (atmosphere_dim np : ℕ) : Ppath :=
  let npos := max 2 atmosphere_dim
  let nlos := max 1 (atmosphere_dim - 1)
  { dim := atmosphere_dim
    np := np
    constant := -1
    background := ppath_set_background_string 0
    start_pos := List.replicate npos (-999)
    start_los := List.replicate nlos (-999)
    start_lstep := 0
    end_pos := List.replicate npos 0
    end_los := List.replicate nlos 0
    end_lstep := 0
    pos := List.replicate np (List.replicate npos 0)
    los := List.replicate np (List.replicate nlos 0)
    r := List.replicate np 0
    lstep := List.replicate (np - 1) 0
    nreal := List.replicate np 0
    ngroup := List.replicate np 0
    gp_p := List.replicate np ⟨0, 0, 0⟩
    gp_lat := if 2 ≤ atmosphere_dim then List.replicate np ⟨0, 0, 0⟩ else []
    gp_lon := if atmosphere_dim = 3 then List.replicate np ⟨0, 0, 0⟩ else [] }

/-- Overwrite the first n entries of dst with the first n entries of
src (the Range(0,n) assignments of ppath_copy). -/
def listOverwriteFirst {α : Type} (n : ℕ) (src dst : List α) : List α :=
  src.take n ++ dst.drop n

/-- ppath_copy (ppath.cc line 1857): copy the content of ppath2 into
ppath1 (its first n points, n = ppath2.np when ncopy is negative). The
np field is not copied; the start fields are copied only when the copy
fills ppath1 completely (n = ppath1.np). -/
def ppath_copy (ppath1 ppath2 : Ppath) (ncopy : ℤ) : Ppath :=
  let n : ℕ := if ncopy < 0 then ppath2.np else ncopy.toNat
  { ppath1 with
    dim := ppath2.dim
    constant := ppath2.constant
    background := ppath2.background
    end_pos := ppath2.end_pos
    end_los := ppath2.end_los
    end_lstep := ppath2.end_lstep
    start_pos := if n = ppath1.np then ppath2.start_pos else ppath1.start_pos
    start_los := if n = ppath1.np then ppath2.start_los else ppath1.start_los
    start_lstep := if n = ppath1.np then ppath2.start_lstep
      else ppath1.start_lstep
    pos := listOverwriteFirst n ppath2.pos ppath1.pos
    los := listOverwriteFirst n ppath2.los ppath1.los
    r := listOverwriteFirst n ppath2.r ppath1.r
    nreal := listOverwriteFirst n ppath2.nreal ppath1.nreal
    ngroup := listOverwriteFirst n ppath2.ngroup ppath1.ngroup
    lstep := if 1 < n then listOverwriteFirst (n - 1) ppath2.lstep ppath1.lstep
      else ppath1.lstep
    gp_p := listOverwriteFirst n ppath2.gp_p ppath1.gp_p
    gp_lat := if 2 ≤ ppath2.dim then
        listOverwriteFirst n ppath2.gp_lat ppath1.gp_lat
      else ppath1.gp_lat
    gp_lon := if ppath2.dim = 3 then
        listOverwriteFirst n ppath2.gp_lon ppath1.gp_lon
      else ppath1.gp_lon }

/-- The body of the append loop of ppath_append (ppath.cc lines
1943-1967): point i of ppath2 is written to index i1 = n1 + i - 1 of
the accumulated structure, where the loop counter j = i - 1 runs over
0..n2-2. -/
def ppath_append_point (p2 : Ppath) (n1 : ℕ) (acc : Ppath) (j : ℕ) : Ppath :=
  let i := j + 1
  let i1 := n1 + i - 1
  let posRow :=
    let row := ((acc.pos.getD i1 []).set 0 ((p2.pos.getD i []).getD 0 0)).set 1
      ((p2.pos.getD i []).getD 1 0)
    if acc.dim = 3 then row.set 2 ((p2.pos.getD i []).getD 2 0) else row
  let losRow :=
    let row := (acc.los.getD i1 []).set 0 ((p2.los.getD i []).getD 0 0)
    if acc.dim = 3 then row.set 1 ((p2.los.getD i []).getD 1 0) else row
  { acc with
    pos := acc.pos.set i1 posRow
    los := acc.los.set i1 losRow
    r := acc.r.set i1 (p2.r.getD i 0)
    nreal := acc.nreal.set i1 (p2.nreal.getD i 0)
    ngroup := acc.ngroup.set i1 (p2.ngroup.getD i 0)
    gp_p := acc.gp_p.set i1 (p2.gp_p.getD i ⟨0, 0, 0⟩)
    gp_lat := if 2 ≤ acc.dim then
        acc.gp_lat.set i1 (p2.gp_lat.getD i ⟨0, 0, 0⟩)
      else acc.gp_lat
    gp_lon := if acc.dim = 3 then
        acc.gp_lon.set i1 (p2.gp_lon.getD i ⟨0, 0, 0⟩)
      else acc.gp_lon
    lstep := acc.lstep.set (i1 - 1) (p2.lstep.getD (i - 1) 0) }

/-- ppath_append (ppath.cc line 1929): append ppath2 to ppath1, whose
first point is assumed to equal ppath1's last point. The function
copies ppath1 into a local temporary, re-initializes ppath1 for
n1+n2-1 points, copies the temporary back, appends the points of
ppath2, and takes over ppath2's background when that is set. The final
three source lines write ppath2's start_pos, start_los and start_lstep
into the local temporary ppath, which is then discarded: they have no
effect on the returned structure. -/
def ppath_append (ppath1 ppath2 : Ppath) : Ppath :=
  let n1 := ppath1.np
  let n2 := ppath2.np
  let ppath := ppath_copy (ppath_init_structure ppath1.dim n1) ppath1 (-1)
  let p1a := ppath_copy (ppath_init_structure ppath1.dim (n1 + n2 - 1))
    ppath (-1)
  let p1b := (List.range (n2 - 1)).foldl (ppath_append_point ppath2 n1) p1a
  let p1c := if ppath_what_background ppath2 ≠ 0 then
      { p1b with background := ppath2.background }
    else p1b
  let _ := { ppath with
    start_pos := ppath2.start_pos
    start_los := ppath2.start_los
    start_lstep := ppath2.start_lstep }
  p1c

/-- The append loop touches only the point data: np, dim, background,
constant and the start fields of the accumulator are unchanged by every
iteration, hence by the whole fold. -/
theorem foldl_append_point_preserves {γ : Type}
    (g : Ppath → γ) (p2 : Ppath) (n1 : ℕ)
    (hg : ∀ acc j, g (ppath_append_point p2 n1 acc j) = g acc)
    (l : List ℕ) (acc : Ppath) :
    g (l.foldl (ppath_append_point p2 n1) acc) = g acc := by
  induction l generalizing acc with
  | nil => rfl
  | cons x xs ih => rw [List.foldl_cons, ih, hg]

/-! ## Claim C10: ppath_append -/

/-- A concrete two-point 1D Ppath with nonzero start fields, used to
exhibit the behaviour of ppath_append. -/
def appendExample1 : Ppath :=
  { dim := 1, np := 2, constant := 5, background := "unvalid"
    start_pos := [7, 8], start_los := [9], start_lstep := 5
    end_pos := [0, 0], end_los := [0], end_lstep := 0
    pos := [[0, 0], [1000, 0]], los := [[10], [20]]
    r := [6000000, 6001000], lstep := [1400]
    nreal := [1, 1], ngroup := [1, 1]
    gp_p := [⟨0, 0, 1⟩, ⟨0, 1, 0⟩], gp_lat := [], gp_lon := [] }

/-- A concrete two-point 1D Ppath with the background set and distinct
start fields, to be appended to appendExample1. -/
def appendExample2 : Ppath :=
  { dim := 1, np := 2, constant := 5, background := "surface"
    start_pos := [1, 2], start_los := [3], start_lstep := 42
    end_pos := [0, 0], end_los := [0], end_lstep := 0
    pos := [[1000, 0], [2000, 0]], los := [[30], [40]]
    r := [6001000, 6002000], lstep := [1500]
    nreal := [1, 1], ngroup := [1, 1]
    gp_p := [⟨0, 1, 0⟩, ⟨1, 1, 0⟩], gp_lat := [], gp_lon := [] }

/-- C10 as stated is refuted at this concrete input: after appending
appendExample2 (np = 2) to appendExample1, the start_lstep of the
result is not left unchanged from before the call (it was 5, it
becomes 0: the re-initialization value), and start_pos is likewise
reset rather than kept. -/
theorem C10_counterexample :
    (ppath_append appendExample1 appendExample2).start_lstep ≠
      appendExample1.start_lstep ∧
    (ppath_append appendExample1 appendExample2).start_lstep = 0 ∧
    appendExample1.start_lstep = 5 ∧
    (ppath_append appendExample1 appendExample2).start_pos ≠
      appendExample1.start_pos := by
  refine ⟨?_, rfl, rfl, ?_⟩ <;> decide

/-- C10 amended: after ppath_append(ppath1, ppath2) with np2 >= 2,
ppath1 holds np1 + np2 - 1 points, its background becomes ppath2's
background when that is set (else stays ppath1's); the copy of
ppath2's start_pos, start_los and start_lstep is written into a local
temporary that is discarded, so these fields of the result do not
receive ppath2's values; but they are not left unchanged either: they
hold the placeholder values of ppath_init_structure (-999 vectors and
0), because the final ppath_copy does not fill the enlarged structure
completely and therefore skips the start fields. -/
theorem C10_ppath_append_fields (p1 p2 : Ppath)
    (h1 : 1 ≤ p1.np) (h2 : 2 ≤ p2.np) :
    (ppath_append p1 p2).np = p1.np + p2.np - 1 ∧
    (ppath_what_background p2 ≠ 0 →
      (ppath_append p1 p2).background = p2.background) ∧
    (ppath_what_background p2 = 0 →
      (ppath_append p1 p2).background = p1.background) ∧
    (ppath_append p1 p2).start_pos = List.replicate (max 2 p1.dim) (-999) ∧
    (ppath_append p1 p2).start_los =
      List.replicate (max 1 (p1.dim - 1)) (-999) ∧
    (ppath_append p1 p2).start_lstep = 0 := by
  have hne : ¬ (p1.np = p1.np + p2.np - 1) := by omega
  unfold ppath_append
  dsimp only
  constructor
  · rw [apply_ite Ppath.np]
    rw [foldl_append_point_preserves Ppath.np p2 p1.np (fun acc j => rfl)]
    unfold ppath_copy ppath_init_structure
    dsimp only
    rw [ite_self]
  · refine ⟨?_, ?_, ?_, ?_, ?_⟩
    · intro hbg
      rw [if_pos hbg]
    · intro hbg
      rw [if_neg (by rw [hbg]; exact fun h => h rfl)]
      rw [foldl_append_point_preserves Ppath.background p2 p1.np
        (fun acc j => rfl)]
      rfl
    · rw [apply_ite Ppath.start_pos]
      rw [foldl_append_point_preserves Ppath.start_pos p2 p1.np
        (fun acc j => rfl)]
      show (if _ then
          (ppath_copy (ppath_init_structure p1.dim (p1.np + p2.np - 1))
            (ppath_copy (ppath_init_structure p1.dim p1.np) p1 (-1))
            (-1)).start_pos
        else _) = _
      rw [ite_self]
      unfold ppath_copy
      dsimp only
      rw [if_neg (by simpa using hne)]
      rfl
    · rw [apply_ite Ppath.start_los]
      rw [foldl_append_point_preserves Ppath.start_los p2 p1.np
        (fun acc j => rfl)]
      rw [ite_self]
      unfold ppath_copy
      dsimp only
      rw [if_neg (by simpa using hne)]
      rfl
    · rw [apply_ite Ppath.start_lstep]
      rw [foldl_append_point_preserves Ppath.start_lstep p2 p1.np
        (fun acc j => rfl)]
      rw [ite_self]
      unfold ppath_copy
      dsimp only
      rw [if_neg (by simpa using hne)]
      rfl

/-- Witness for C10 (amended): the two concrete two-point paths. -/
theorem C10_witness :
    (ppath_append appendExample1 appendExample2).np = 3 ∧
    (ppath_append appendExample1 appendExample2).background = "surface" ∧
    (ppath_append appendExample1 appendExample2).start_lstep = 0 := by
  have h := C10_ppath_append_fields appendExample1 appendExample2
    (by decide) (by decide)
  exact ⟨h.1, h.2.1 (by decide), h.2.2.2.2.2⟩

/-! ## The stepping loop of ppath_calc (ppath.cc lines 5255-5484)

The loop repeatedly executes the ppath_step agenda (external code,
abstracted here as the oracle steps, giving for each 1-based step
number the data of the returned step that the loop inspects) and checks
the boundaries. The model covers atmosphere_dim <= 2 with the cloudbox
off and the calculation outside the cloudbox, which is the fragment the
claims speak about. An Except.error result models a thrown
runtime_error: the merge of the collected steps into the output Ppath
never happens and no partial path is returned. -/

/-- The data of one artefact of the ppath_step agenda that the loop of
ppath_calc inspects: the number of points n of the returned step, the
background case it set (0 = none), whether the final grid positions
sit at the top pressure level (is_gridpos_at_index_i(gp_p[n-1],
imax_p)) or at the first / last latitude grid index, and the final
altitude in km, pos(n-1,0)/1e3, used in the wall error messages. -/
structure StepOutcome where
  n : ℕ
  background : ℕ
  atTopP : Bool
  atLat0 : Bool
  atLatMax : Bool
  altkm : ℚ

/-- The runtime_error outcomes of the modelled fragment of the loop:
the 10000-step cap ("10 000 path points have been reached. Is this an
infinite loop?") and the two latitude end face errors ("The path exits
the atmosphere through the lower/upper latitude end face. The exit
point is at an altitude of X km."). -/
inductive CalcError where
  | infiniteLoop
  | latFaceLower (altkm : ℚ)
  | latFaceUpper (altkm : ℚ)
deriving DecidableEq

/-- The while loop of ppath_calc (ppath.cc lines 5267-5484) for
atmosphere_dim <= 2, cloudbox off: step istep+1 is executed; then the
step counter is checked against 1e4; then (top of atmosphere check
first, which only sets the background) the latitude end faces are
checked, raising the wall errors; finally, if a background is set the
loop ends, returning the accumulated number of path points. -/
def ppath_calc_loop (dim : ℕ) (steps : ℕ → StepOutcome)
    (istep np : ℕ) : Except CalcError ℕ :=
  let o := steps (istep + 1)
  let np1 := np + o.n - 1
  if h : 10000 < istep + 1 then Except.error CalcError.infiniteLoop
  else
    let bg := if o.atTopP = true then 1 else o.background
    if dim = 2 ∧ o.atLat0 = true then
      Except.error (CalcError.latFaceLower o.altkm)
    else if dim = 2 ∧ o.atLatMax = true then
      Except.error (CalcError.latFaceUpper o.altkm)
    else if bg ≠ 0 then Except.ok np1
    else ppath_calc_loop dim steps (istep + 1) np1
termination_by 10001 - istep
decreasing_by omega

/-! ## The end face selection of do_gridcell_2d
    (ppath.cc lines 2880-2925) -/

/-- The result of one plevel_crossing_2d call as consumed by
do_gridcell_2d: radius (R_NOT_FOUND = -1, i.e. non-positive, when no
crossing exists), latitude and length of the crossing. The crossing
solver itself rests on the external polynomial root finder and is
abstracted: its three results for the lower level, the surface and the
upper level are inputs here. -/
structure Crossing2D where
  r : ℝ
  lat : ℝ
  l : ℝ

/-- The selected exit of a 2D grid cell: endface code, radius and
latitude of the end point (1 = lower latitude face, 2 = lower level,
3 = upper latitude face, 4 = upper level, 7 = surface). -/
structure Cell2DSel where
  endface : ℤ
  r : ℝ
  lat : ℝ

/-- The end face selection of do_gridcell_2d (ppath.cc lines
2880-2925), taking the three plevel_crossing_2d results as inputs: the
lower level wins if it is crossed; the surface supersedes it when the
surface reaches into the cell and is crossed no later; the upper level
supersedes both when crossed strictly earlier; if no radius was found
the path leaves through a latitude face, at lat1 for za_start < 0 and
at lat3 otherwise, with the radius from geompath_r_at_lat. -/
noncomputable def do_gridcell_2d_select
    (za_start ppc lat_start lat1 lat3 r1a r3a rsurface1 rsurface3 : ℝ)
    (low surf upp : Crossing2D) : Cell2DSel :=
  let s0 : ℤ × ℝ × ℝ × ℝ :=
    if 0 < low.r then (2, low.r, low.lat, low.l) else (0, low.r, low.lat, low.l)
  let s1 : ℤ × ℝ × ℝ × ℝ :=
    if (r1a ≤ rsurface1 ∨ r3a ≤ rsurface3) ∧ 0 < surf.r ∧ surf.l ≤ s0.2.2.2
      then (7, surf.r, surf.lat, surf.l)
    else s0
  let s2 : ℤ × ℝ × ℝ × ℝ :=
    if 0 < upp.r ∧ upp.l < s1.2.2.2 then (4, upp.r, upp.lat, s1.2.2.2)
    else s1
  if s2.2.1 ≤ 0 then
    let eflat : ℤ × ℝ := if za_start < 0 then (1, lat1) else (3, lat3)
    ⟨eflat.1, geompath_r_at_lat ppc lat_start za_start eflat.2, eflat.2⟩
  else ⟨s2.1, s2.2.1, s2.2.2.1⟩

/-! ## Claim theorems C4 and C5 -/

/-- C4: on every input on which the stepping loop of ppath_calc does
not terminate earlier (the oracle never sets a background and never
reaches the top of the atmosphere or a latitude wall), the computation
aborts with the infinite-loop runtime_error as soon as the number of
executed steps exceeds 10000, and no partial path is returned (the
error outcome carries no point count). -/
theorem C4_infinite_loop_cap (dim : ℕ) (steps : ℕ → StepOutcome)
    (istep np : ℕ) (hstep : istep ≤ 10000)
    (hnoterm : ∀ k, (steps k).background = 0 ∧ (steps k).atTopP = false ∧
      (steps k).atLat0 = false ∧ (steps k).atLatMax = false) :
    ppath_calc_loop dim steps istep np = Except.error CalcError.infiniteLoop := by
  have main : ∀ d istep np, 10001 - istep = d → istep ≤ 10000 →
      ppath_calc_loop dim steps istep np =
        Except.error CalcError.infiniteLoop := by
    intro d
    induction d with
    | zero =>
      intro istep np hd hle
      omega
    | succ d ih =>
      intro istep np hd hle
      obtain ⟨hbg, htop, hl0, hlmax⟩ := hnoterm (istep + 1)
      unfold ppath_calc_loop
      by_cases hcap : 10000 < istep + 1
      · rw [dif_pos hcap]
      · rw [dif_neg hcap]
        dsimp only
        rw [htop, hl0, hlmax, hbg]
        rw [if_neg (by simp), if_neg (by simp), if_neg (by simp)]
        exact ih (istep + 1) _ (by omega) (by omega)
  exact main (10001 - istep) istep np rfl hstep

/-- Witness for C4: an oracle whose steps never terminate the path. -/
def stepsNoTermination : ℕ → StepOutcome :=
  fun _ => ⟨2, 0, false, false, false, 0⟩

/-- Witness for C4: starting the loop at step counter 0 with the
non-terminating oracle aborts with the infinite-loop error. -/
theorem C4_witness :
    ppath_calc_loop 1 stepsNoTermination 0 1 =
      Except.error CalcError.infiniteLoop :=
  C4_infinite_loop_cap 1 stepsNoTermination 0 1 (by omega)
    (fun k => ⟨rfl, rfl, rfl, rfl⟩)

/-- C5: in a 2D atmosphere, whenever the final point of a path step
lies exactly at the first or last latitude grid index, ppath_calc
aborts with the hard error naming the lower resp. upper latitude end
face (with the exit altitude). Moreover, for the scenario of a sensor
heading toward increasing latitude (za_start >= 0, e.g. at lat 9 in a
[-10, 10] grid) whose step meets no pressure-level or surface crossing
before the wall, do_gridcell_2d selects the upper latitude end face
(endface 3) at lat3, so that step ends at the upper latitude grid
index and the loop raises the upper-end-face error. -/
theorem C5_latitude_wall_error (steps : ℕ → StepOutcome) (istep np : ℕ)
    (za_start ppc lat_start lat1 lat3 r1a r3a rsurface1 rsurface3 : ℝ)
    (low surf upp : Crossing2D)
    (hstep : istep < 10000) :
    ((steps (istep + 1)).atLat0 = true →
      ppath_calc_loop 2 steps istep np =
        Except.error (CalcError.latFaceLower (steps (istep + 1)).altkm)) ∧
    ((steps (istep + 1)).atLat0 = false → (steps (istep + 1)).atLatMax = true →
      ppath_calc_loop 2 steps istep np =
        Except.error (CalcError.latFaceUpper (steps (istep + 1)).altkm)) ∧
    (low.r ≤ 0 → surf.r ≤ 0 → upp.r ≤ 0 → 0 ≤ za_start →
      (do_gridcell_2d_select za_start ppc lat_start lat1 lat3 r1a r3a
        rsurface1 rsurface3 low surf upp).endface = 3 ∧
      (do_gridcell_2d_select za_start ppc lat_start lat1 lat3 r1a r3a
        rsurface1 rsurface3 low surf upp).lat = lat3) := by
  have hcap : ¬ (10000 < istep + 1) := by omega
  refine ⟨?_, ?_, ?_⟩
  · intro h0
    unfold ppath_calc_loop
    rw [dif_neg hcap]
    dsimp only
    rw [if_pos ⟨rfl, h0⟩]
  · intro h0 hmax
    unfold ppath_calc_loop
    rw [dif_neg hcap]
    dsimp only
    rw [if_neg (by rw [h0]; rintro ⟨-, h⟩; exact Bool.false_ne_true h),
      if_pos ⟨rfl, hmax⟩]
  · intro hlow hsurf hupp hza
    unfold do_gridcell_2d_select
    dsimp only
    rw [if_neg (not_lt.mpr hlow)]
    dsimp only
    have hns : ¬ ((r1a ≤ rsurface1 ∨ r3a ≤ rsurface3) ∧
        0 < surf.r ∧ surf.l ≤ low.l) :=
      fun h => absurd h.2.1 (not_lt.mpr hsurf)
    rw [if_neg hns]
    dsimp only
    have hnu : ¬ (0 < upp.r ∧ upp.l < low.l) :=
      fun h => absurd h.1 (not_lt.mpr hupp)
    rw [if_neg hnu]
    dsimp only
    rw [if_pos hlow, if_neg (not_lt.mpr hza)]
    exact ⟨rfl, rfl⟩

/-- Witness for C5: an oracle whose first step ends at the upper
latitude grid index. -/
def stepsUpperWall : ℕ → StepOutcome :=
  fun _ => ⟨2, 0, false, false, true, 5⟩

/-- Witness for C5: a crossing result reporting that no crossing was
found (r = R_NOT_FOUND = -1, l = L_NOT_FOUND = 99e99). -/
def crossingNotFound : Crossing2D := ⟨-1, 99e99, 99e99⟩

/-- Witness for C5: the loop raises the upper-latitude-end-face error,
and with no crossings the 2D cell step of a sensor with za = 81 at lat
9 in the top cell [8, 10] of a [-10, 10] grid exits at the upper
latitude face. -/
theorem C5_witness :
    ppath_calc_loop 2 stepsUpperWall 0 1 =
      Except.error (CalcError.latFaceUpper 5) ∧
    (do_gridcell_2d_select 81 6000000 9 8 10 6378000 6378000 6377000 6377000
      crossingNotFound crossingNotFound crossingNotFound).endface = 3 ∧
    (do_gridcell_2d_select 81 6000000 9 8 10 6378000 6378000 6377000 6377000
      crossingNotFound crossingNotFound crossingNotFound).lat = 10 := by
  have h := C5_latitude_wall_error stepsUpperWall 0 1
    81 6000000 9 8 10 6378000 6378000 6377000 6377000
    crossingNotFound crossingNotFound crossingNotFound (by omega)
  have hsel := h.2.2 (by norm_num [crossingNotFound])
    (by norm_num [crossingNotFound]) (by norm_num [crossingNotFound])
    (by norm_num)
  exact ⟨h.2.1 rfl rfl, hsel.1, hsel.2⟩

end Arts
